import Mathlib

/-!
Shallow embedding of the ArayaFinGroup broker authentication module:
`broker/aryafingroup/baseurl.py` (the `URLConfig` class) and
`broker/aryafingroup/api/auth_api.py` (`hostlookup_login`,
`authenticate_broker`, `get_feed_token`).

Python values flowing through the module (JSON decode results, `None`,
strings) are modelled by `JValue`; a raised Python exception is an
`.error` of the `PyM` monad, and each `try`/`except` block of the source
is a `*_try` definition whose `.error` outcome the enclosing function
catches.  The process-wide state touched by the module — the `URLConfig`
class attributes and the sequence of HTTP POSTs issued through the shared
client — is a `World` threaded explicitly; the HTTP layer's behaviour for
one run is an oracle `HttpLayer` giving the response (or exception) to
the n-th request issued.  The `urlparse` call inside
`URLConfig._update_derived_urls` is modelled after CPython 3.11's
`urllib.parse.urlsplit` (whitespace cleanup, scheme and netloc split,
and the netloc validation that can raise `ValueError`), so the partial
mutation of `update_base_url` — `BASE_URL` assigned, derived URLs stale —
is representable.
-/

namespace AryaFinGroup

/-- A raised Python exception; only its `str(e)` text is observed by the module. -/
structure PyExn where
  msg : String
deriving DecidableEq

/-- A computation that may raise a Python exception. -/
abbrev PyM (α : Type) := Except PyExn α

/-- Python values reaching this module: `None`, booleans, numbers, strings,
and JSON arrays / objects produced by `response.json()`. -/
inductive JValue where
  | null
  | bool (b : Bool)
  | num (n : Int)
  | str (s : String)
  | arr (elems : List JValue)
  | obj (fields : List (String × JValue))

/-- Python truthiness, as used by `if result.get(...) and ...` and `if feed_error:`. -/
def JValue.truthy : JValue → Bool
  | .null => false
  | .bool b => b
  | .num n => n != 0
  | .str s => s != ""
  | .arr elems => !elems.isEmpty
  | .obj fields => !fields.isEmpty

/-- Python `is None` / `is not None` test. -/
def JValue.isNull : JValue → Bool
  | .null => true
  | _ => false

/-- Python `d.get(k)`: the value, or `None` when the key is absent; a
non-dict receiver raises `AttributeError`. -/
def JValue.get : JValue → String → PyM JValue
  | .obj fields, k =>
      match fields.lookup k with
      | some v => .ok v
      | none => .ok .null
  | .null, _ => .error ⟨"NoneType object has no attribute get"⟩
  | _, _ => .error ⟨"object has no attribute get"⟩

/-- Python `d.get(k, default)`. -/
def JValue.getD : JValue → String → JValue → PyM JValue
  | .obj fields, k, d =>
      match fields.lookup k with
      | some v => .ok v
      | none => .ok d
  | .null, _, _ => .error ⟨"NoneType object has no attribute get"⟩
  | _, _, _ => .error ⟨"object has no attribute get"⟩

/-- Python `d[k]` on a JSON value: `KeyError` on a missing key,
`TypeError` on a non-dict receiver. -/
def JValue.item : JValue → String → PyM JValue
  | .obj fields, k =>
      match fields.lookup k with
      | some v => .ok v
      | none => .error ⟨"KeyError: " ++ k⟩
  | _, k => .error ⟨"object is not subscriptable: " ++ k⟩

/-- Python `==` between an arbitrary value and a string literal: only a
string can compare equal to a string. -/
def JValue.eqStr : JValue → String → Bool
  | .str a, b => a == b
  | _, _ => false

/-- Python `repr`, as applied to elements of containers by `str`. -/
def JValue.toPyRepr : JValue → String
  | .null => "None"
  | .bool true => "True"
  | .bool false => "False"
  | .num n => toString n
  | .str s => "\x27" ++ s ++ "\x27"
  | .arr elems =>
      "[" ++ String.intercalate ", " (elems.attach.map fun e => e.1.toPyRepr) ++ "]"
  | .obj fields =>
      "\x7b" ++
        String.intercalate ", "
          (fields.attach.map fun e => "\x27" ++ e.1.1 ++ "\x27: " ++ e.1.2.toPyRepr) ++
        "\x7d"
decreasing_by
  · have h := List.sizeOf_lt_of_mem e.2
    simp only [JValue.arr.sizeOf_spec]
    omega
  · have h := List.sizeOf_lt_of_mem e.2
    have h2 : sizeOf e.1.2 < sizeOf e.1 := by
      obtain ⟨a, b⟩ := e.1
      simp only [Prod.mk.sizeOf_spec]
      omega
    simp only [JValue.obj.sizeOf_spec]
    omega

/-- Python `str`, as used by f-string interpolation. -/
def JValue.toPyStr : JValue → String
  | .str s => s
  | v => v.toPyRepr

/-- `os.getenv` results (`None` or a string) as Python values. -/
def jOfOpt : Option String → JValue
  | some s => .str s
  | none => .null

/-! ## URL registry (`broker/aryafingroup/baseurl.py`) -/

/-- Characters allowed in a URL scheme after its first letter
(`urllib.parse.scheme_chars`). -/
def schemeChar (c : Char) : Bool :=
  c.isAlpha || c.isDigit || c == '+' || c == '-' || c == '.'

/-- Split a character list at its first colon, if any. -/
def splitColon : List Char → Option (List Char × List Char)
  | [] => none
  | c :: cs =>
      if c == ':' then some ([], cs)
      else
        match splitColon cs with
        | some (a, b) => some (c :: a, b)
        | none => none

/-- The scheme and the remainder of a URL, following `urllib.parse`: a
scheme is recognised when the text before the first colon is nonempty,
starts with a letter and consists of scheme characters; it is lowercased. -/
def splitScheme (cs : List Char) : List Char × List Char :=
  match splitColon cs with
  | some (a, b) =>
      if !a.isEmpty && (a.headD 'x').isAlpha && a.all schemeChar then
        (a.map Char.toLower, b)
      else ([], cs)
  | none => ([], cs)

/-- The netloc and the remainder: a netloc is present only when what
follows the scheme starts with `//`, and extends to the next `/`, `?`
or `#`. -/
def splitNetloc (cs : List Char) : List Char × List Char :=
  match cs with
  | '/' :: '/' :: rest =>
      (rest.takeWhile (fun c => !(c == '/' || c == '?' || c == '#')),
       rest.dropWhile (fun c => !(c == '/' || c == '?' || c == '#')))
  | _ => ([], cs)

/-- Characters `urlsplit` removes anywhere in the URL (tab, CR, LF:
`_UNSAFE_URL_BYTES_TO_REMOVE`). -/
def removedURLChar (c : Char) : Bool := c == '\t' || c == '\r' || c == '\n'

/-- WHATWG C0 control or space (codepoints 0x00-0x20), stripped from the
front of the URL by `urlsplit`. -/
def c0ControlOrSpace (c : Char) : Bool := c.toNat ≤ 0x20

/-- The cleanup `urlsplit` applies before parsing: lstrip of C0
control/space, then removal of every tab, CR and LF. -/
def cleanURL (cs : List Char) : List Char :=
  (cs.dropWhile c0ControlOrSpace).filter (fun c => !removedURLChar c)

/-- Python `str.split(sep)` on character lists (always at least one part;
an empty input gives one empty part). -/
def splitOnChar (sep : Char) : List Char → List (List Char)
  | [] => [[]]
  | c :: cs =>
      if c == sep then [] :: splitOnChar sep cs
      else
        match splitOnChar sep cs with
        | [] => [[c]]
        | p :: ps => (c :: p) :: ps

/-- ASCII decimal value of a digit string. -/
def decimalVal (cs : List Char) : Nat :=
  cs.foldl (fun a c => a * 10 + (c.toNat - 48)) 0

/-- One octet of an IPv4 dotted-quad, per `ipaddress._parse_octet`:
nonempty, ASCII digits only, at most 3 characters, no leading zeros,
value at most 255. -/
def validIPv4Octet (cs : List Char) : Bool :=
  !cs.isEmpty && cs.all Char.isDigit && cs.length ≤ 3
    && (cs == ['0'] || !(cs.headD 'x' == '0'))
    && decimalVal cs ≤ 255

/-- IPv4 address text, per `ipaddress.IPv4Address`: exactly four valid
octets separated by dots. -/
def validIPv4 (cs : List Char) : Bool :=
  let parts := splitOnChar '.' cs
  parts.length == 4 && parts.all validIPv4Octet

/-- The hex digits accepted in an IPv6 hextet. -/
def isHexDigitChar (c : Char) : Bool :=
  c.isDigit || ('a' ≤ c && c ≤ 'f') || ('A' ≤ c && c ≤ 'F')

/-- One IPv6 hextet, per `ipaddress._parse_hextet`: one to four hex
digits. -/
def validHextet (cs : List Char) : Bool :=
  !cs.isEmpty && cs.length ≤ 4 && cs.all isHexDigitChar

/-- IPv6 address text without a scope id, per
`ipaddress.IPv6Address._ip_int_from_string`: colon-separated hextets with
at most one `::` run, an optional embedded IPv4 tail (which stands for
two hextets), and exactly eight groups in total. -/
def validIPv6NoScope (cs : List Char) : Bool :=
  if cs.isEmpty then false
  else
    let parts0 := splitOnChar ':' cs
    if parts0.length < 3 then false
    else
      let last := parts0.getLastD []
      if last.contains '.' && !validIPv4 last then false
      else
        let parts := if last.contains '.' then parts0.dropLast ++ [['0'], ['0']] else parts0
        if parts.length > 9 then false
        else
          let n := parts.length
          let interior := (parts.drop 1).dropLast
          let empties := interior.countP (fun p => p.isEmpty)
          if empties > 1 then false
          else if empties == 1 then
            let skipIndex := 1 + interior.findIdx (fun p => p.isEmpty)
            let firstEmpty := (parts.headD ['x']).isEmpty
            let lastEmpty := (parts.getLastD ['x']).isEmpty
            if firstEmpty && skipIndex ≠ 1 then false
            else if lastEmpty && skipIndex ≠ n - 2 then false
            else
              let partsHi := if firstEmpty then skipIndex - 1 else skipIndex
              let partsLo0 := n - skipIndex - 1
              let partsLo := if lastEmpty then partsLo0 - 1 else partsLo0
              if partsHi + partsLo ≥ 8 then false
              else
                (parts.take partsHi).all validHextet
                  && (parts.drop (n - partsLo)).all validHextet
          else
            if n ≠ 8 then false
            else if (parts.headD ['x']).isEmpty || (parts.getLastD ['x']).isEmpty then false
            else parts.all validHextet

/-- IPv6 address text with an optional `%scope` suffix, per
`ipaddress.IPv6Address.__init__`: no slash; at most one percent sign,
whose suffix must be nonempty. -/
def validIPv6WithScope (cs : List Char) : Bool :=
  if cs.contains '/' then false
  else
    let addr := cs.takeWhile (fun c => !(c == '%'))
    let rest := cs.dropWhile (fun c => !(c == '%'))
    match rest with
    | [] => validIPv6NoScope addr
    | _ :: scope => !scope.isEmpty && !scope.contains '%' && validIPv6NoScope addr

/-- The IPvFuture shape accepted by `urllib.parse._check_bracketed_host`:
`v`, one or more hex digits, a dot, then a nonempty remainder. -/
def ipvFutureOK (host : List Char) : Bool :=
  match host with
  | 'v' :: rest =>
      let hexs := rest.takeWhile isHexDigitChar
      let rest2 := rest.dropWhile isHexDigitChar
      !hexs.isEmpty &&
        (match rest2 with
         | '.' :: tail => !tail.isEmpty
         | _ => false)
  | _ => false

/-- The netloc checks of `urlsplit` (Python 3.11): a netloc with
mismatched square brackets raises `ValueError("Invalid IPv6 URL")`; a
bracketed host must be an IPvFuture literal or a valid IPv6 address (a
bracketed IPv4 address also raises).  The NFKC-normalisation check of
`_checknetloc`, which rejects only certain non-ASCII netlocs, is
modelled as passing (it is exact on all-ASCII netlocs, which every
theorem below exercises). -/
def checkNetloc (netloc : List Char) : PyM Unit :=
  if (netloc.contains '[' && !netloc.contains ']')
      || (netloc.contains ']' && !netloc.contains '[') then
    .error ⟨"Invalid IPv6 URL"⟩
  else if netloc.contains '[' && netloc.contains ']' then
    let host := ((netloc.dropWhile (fun c => !(c == '['))).drop 1).takeWhile
      (fun c => !(c == ']'))
    if host.headD ' ' == 'v' then
      if ipvFutureOK host then .ok () else .error ⟨"IPvFuture address is invalid"⟩
    else if validIPv4 host then .error ⟨"An IPv4 address cannot be in brackets"⟩
    else if validIPv6WithScope host then .ok ()
    else
      .error ⟨"\x27" ++ String.mk host ++ "\x27 does not appear to be an IPv4 or IPv6 address"⟩
  else .ok ()

/-- The scheme and netloc computed by `urllib.parse.urlsplit` (as invoked
through `urlparse` in `URLConfig._update_derived_urls`), raising a
`ValueError` exactly where CPython 3.11 does. -/
def urlsplit_scheme_netloc (url : String) : PyM (String × String) :=
  let cs := cleanURL url.data
  let (scheme, rest) := splitScheme cs
  let (netloc, _) := splitNetloc rest
  match checkNetloc netloc with
  | .error e => .error e
  | .ok _ => .ok (String.mk scheme, String.mk netloc)

/-- The `base_domain` f-string of `URLConfig._update_derived_urls`,
`f"{parsed.scheme}://{parsed.netloc}"`, raising where `urlparse` raises. -/
def origin (url : String) : PyM String :=
  match urlsplit_scheme_netloc url with
  | .error e => .error e
  | .ok (scheme, netloc) => .ok (scheme ++ "://" ++ netloc)

/-- The class attributes of `URLConfig` read and written by the module. -/
structure URLState where
  HOST_LOOKUP_URL : String
  BASE_URL : String
  MARKET_DATA_URL : String
  INTERACTIVE_URL : String
deriving DecidableEq

/-- `URLConfig._update_derived_urls`: `urlparse` runs first and may
raise, in which case neither derived URL is assigned; on success both
are assigned.  The pair holds the resulting class state and whether an
exception escaped. -/
def update_derived_urls (s : URLState) : URLState × PyM Unit :=
  match origin s.BASE_URL with
  | .error e => (s, .error e)
  | .ok base_domain =>
      ({ s with
          MARKET_DATA_URL := base_domain ++ "/apimarketdata"
          INTERACTIVE_URL := s.BASE_URL }, .ok ())

/-- `URLConfig.update_base_url`: `BASE_URL` is assigned first; if
`_update_derived_urls` then raises, the state keeps the new `BASE_URL`
with the previous (now stale) derived URLs and the exception escapes to
the caller. -/
def update_base_url (s : URLState) (new_base_url : String) : URLState × PyM Unit :=
  update_derived_urls { s with BASE_URL := new_base_url }

/-- The `URLConfig` state at module load: the two hardcoded class
attributes, followed by the module-level `URLConfig._update_derived_urls()`
call that first creates the two derived attributes (modelled as empty
strings until that call overwrites them; the call succeeds on the
hardcoded base URL, and were it to raise, the import itself would fail
and none of this module would run). -/
def initURLState : URLState :=
  (update_derived_urls
    { HOST_LOOKUP_URL := "http://xtstradingnse.aryafingroup.in:3000/hostlookup"
      BASE_URL := "http://xtstradingnse.aryafingroup.in:3000"
      MARKET_DATA_URL := ""
      INTERACTIVE_URL := "" }).1

/-! ## HTTP world -/

/-- Environment variables, read through `os.getenv`. -/
abbrev Env := String → Option String

/-- Which of the module's three POST call sites issued a request
(instrumentation of the request trace). -/
inductive ReqKind where
  | hostlookup
  | session
  | feed
deriving DecidableEq

/-- One POST issued through the shared httpx client. -/
structure Request where
  kind : ReqKind
  url : String
  payload : JValue

/-- An HTTP response: its status code and what its `.json()` method
yields (a parsed value, or a raised decode exception). -/
structure HResponse where
  status_code : Nat
  jsonBody : PyM JValue

/-- The HTTP layer's behaviour for one run: the response — or raised
exception — for the n-th request issued, n counted from 0. -/
abbrev HttpLayer := Nat → Request → PyM HResponse

/-- The mutable state visible to the module: the `URLConfig` class
attributes and the trace of requests issued so far. -/
structure World where
  urlcfg : URLState
  trace : List Request

/-- The world at process start: freshly loaded `URLConfig`, no requests. -/
def initWorld : World := ⟨initURLState, []⟩

/-- `client.post(url, json=payload)`: records the request in the trace and
consults the HTTP layer. -/
def doPost (http : HttpLayer) (k : ReqKind) (w : World) (url : String)
    (payload : JValue) : World × PyM HResponse :=
  let req : Request := ⟨k, url, payload⟩
  ({ w with trace := w.trace ++ [req] }, http w.trace.length req)

/-! ## `auth_api.py` -/

/-- The `params` dict of `hostlookup_login`. -/
def hostlookupParams (env : Env) : JValue :=
  .obj [("accesspassword", .str ((env "HOSTLOOKUP_ACCESS_PASSWORD").getD "2021HostLookUpAccess")),
        ("version", .str ((env "HOSTLOOKUP_VERSION").getD "interactive_1.0.1"))]

/-- The hostlookup POST as it appears in the request trace. -/
def hostlookupRequest (env : Env) (w : World) : Request :=
  ⟨.hostlookup, w.urlcfg.HOST_LOOKUP_URL, hostlookupParams env⟩

/-- The `payload` dict of `authenticate_broker`. -/
def sessionPayload (env : Env) (unique_key : JValue) : JValue :=
  .obj [("appKey", jOfOpt (env "BROKER_API_KEY")),
        ("secretKey", jOfOpt (env "BROKER_API_SECRET")),
        ("source", .str "WebAPI"),
        ("uniqueKey", unique_key)]

/-- The session POST as it appears in the request trace. -/
def sessionRequest (env : Env) (connectionString unique_key : JValue) (w : World) : Request :=
  ⟨.session, connectionString.toPyStr ++ "/user/session", sessionPayload env unique_key⟩

/-- The `feed_payload` dict of `get_feed_token`. -/
def feedPayload (env : Env) : JValue :=
  .obj [("secretKey", jOfOpt (env "BROKER_API_SECRET_MARKET")),
        ("appKey", jOfOpt (env "BROKER_API_KEY_MARKET")),
        ("source", .str "WebAPI")]

/-- The feed POST as it appears in the request trace. -/
def feedRequest (env : Env) (w : World) : Request :=
  ⟨.feed, w.urlcfg.MARKET_DATA_URL ++ "/auth/login", feedPayload env⟩

/-- The `try`-block of `hostlookup_login`, together with the fall-through
`return None, None, "Error during hostlookup: Unknown error or unexpected
response."` after the `try` statement (reached when the status is not 200).
A raised exception escapes as `.error`, to be caught by `hostlookup_login`.
The Python condition `result.get("connectionString") and
result.get("uniqueKey")` short-circuits, and its branches re-read the same
keys of the unchanged dict. -/
def hostlookup_try (env : Env) (http : HttpLayer) (w : World) :
    World × PyM (JValue × JValue × JValue) :=
  let HOST_LOOKUP_URL := w.urlcfg.HOST_LOOKUP_URL
  let (w, res) := doPost http .hostlookup w HOST_LOOKUP_URL (hostlookupParams env)
  match res with
  | .error e => (w, .error e)
  | .ok response =>
    if response.status_code == 200 then
      match response.jsonBody with
      | .error e => (w, .error e)
      | .ok j =>
        match j.get "result" with
        | .error e => (w, .error e)
        | .ok result =>
          match result.get "connectionString" with
          | .error e => (w, .error e)
          | .ok cs =>
            if cs.truthy then
              match result.get "uniqueKey" with
              | .error e => (w, .error e)
              | .ok uk =>
                if uk.truthy then (w, .ok (cs, uk, .null))
                else (w, .ok (.null, .null, .str "Error during hostlookup: Incomplete response data."))
            else (w, .ok (.null, .null, .str "Error during hostlookup: Incomplete response data."))
    else
      (w, .ok (.null, .null, .str "Error during hostlookup: Unknown error or unexpected response."))

/-- `hostlookup_login`: the try-block with its `except Exception` handler. -/
def hostlookup_login (env : Env) (http : HttpLayer) (w : World) :
    World × (JValue × JValue × JValue) :=
  match hostlookup_try env http w with
  | (w, .ok t) => (w, t)
  | (w, .error e) => (w, (.null, .null, .str ("Error during hostlookup: " ++ e.msg)))

/-- The `try`-block of `get_feed_token`.  The source initialises
`feed_token = None; user_id = None`, overwrites them in the
200-and-success branch, and joins on `return feed_token, user_id, None`;
the early `return`s of the two failure branches are kept as written. -/
def get_feed_token_try (env : Env) (http : HttpLayer) (w : World) :
    World × PyM (JValue × JValue × JValue) :=
  let feed_url := w.urlcfg.MARKET_DATA_URL ++ "/auth/login"
  let (w, res) := doPost http .feed w feed_url (feedPayload env)
  match res with
  | .error e => (w, .error e)
  | .ok feed_response =>
    if feed_response.status_code == 200 then
      match feed_response.jsonBody with
      | .error e => (w, .error e)
      | .ok feed_result =>
        match feed_result.get "type" with
        | .error e => (w, .error e)
        | .ok ty =>
          if ty.eqStr "success" then
            match feed_result.item "result" with
            | .error e => (w, .error e)
            | .ok r =>
              match r.get "token" with
              | .error e => (w, .error e)
              | .ok feed_token =>
                match r.get "userID" with
                | .error e => (w, .error e)
                | .ok user_id => (w, .ok (feed_token, user_id, .null))
          else (w, .ok (.null, .null, .str "Feed token request failed. Please check the response."))
    else
      match feed_response.jsonBody with
      | .error e => (w, .error e)
      | .ok feed_error_detail =>
        match feed_error_detail.getD "description" (.str "Feed token request failed. Please try again.") with
        | .error e => (w, .error e)
        | .ok msg => (w, .ok (.null, .null, .str ("API Error (Feed): " ++ msg.toPyStr)))

/-- `get_feed_token`: the try-block with its `except Exception` handler. -/
def get_feed_token (env : Env) (http : HttpLayer) (w : World) :
    World × (JValue × JValue × JValue) :=
  match get_feed_token_try env http w with
  | (w, .ok t) => (w, t)
  | (w, .error e) => (w, (.null, .null, .str ("An exception occurred: " ++ e.msg)))

/-- The tail of `authenticate_broker` once a session token has been
extracted: the `get_feed_token()` call and the packaging of the returned
4-tuple (`if feed_error:` is a truthiness test; `feed_error` is
str-interpolated into the message). -/
def authenticate_feedStep (env : Env) (http : HttpLayer) (token : JValue) (w : World) :
    World × PyM (JValue × JValue × JValue × JValue) :=
  match get_feed_token env http w with
  | (w, (feed_token, user_id, feed_error)) =>
    if feed_error.truthy then
      (w, .ok (token, .null, .null, .str ("Feed token error: " ++ feed_error.toPyStr)))
    else
      (w, .ok (token, feed_token, user_id, .null))

/-- The 200-branch of `authenticate_broker` after `response.json()` has
parsed: the `URLConfig.update_base_url(connectionString)` call followed by
the `type` check and `result["result"]["token"]` extraction.  In the source
a non-string `connectionString` makes `urlparse` raise inside
`update_base_url` (after assigning the non-string to `BASE_URL`, an
assignment a `String`-typed `BASE_URL` cannot represent and that no later
read observes in such a run, since the raised exception ends the run);
the embedding raises at the same program point. -/
def authenticate_on200 (env : Env) (http : HttpLayer) (connectionString : JValue)
    (result : JValue) (w : World) : World × PyM (JValue × JValue × JValue × JValue) :=
  match connectionString with
  | .str cs =>
    let upd := update_base_url w.urlcfg cs
    let w := { w with urlcfg := upd.1 }
    match upd.2 with
    | .error e => (w, .error e)
    | .ok _ =>
      match result.get "type" with
      | .error e => (w, .error e)
      | .ok ty =>
        if ty.eqStr "success" then
          match result.item "result" with
          | .error e => (w, .error e)
          | .ok r =>
            match r.item "token" with
            | .error e => (w, .error e)
            | .ok token => authenticate_feedStep env http token w
        else
          (w, .ok (.null, .null, .null,
            .str "Authentication succeeded but no access token was returned. Please check the response."))
  | _ => (w, .error ⟨"urlparse expects a string"⟩)

/-- `authenticate_broker` from the session POST on (the code following a
hostlookup that reported no error). -/
def authenticate_session (env : Env) (http : HttpLayer)
    (connectionString unique_key : JValue) (w : World) :
    World × PyM (JValue × JValue × JValue × JValue) :=
  let session_url := connectionString.toPyStr ++ "/user/session"
  let (w, res) := doPost http .session w session_url (sessionPayload env unique_key)
  match res with
  | .error e => (w, .error e)
  | .ok response =>
    if response.status_code == 200 then
      match response.jsonBody with
      | .error e => (w, .error e)
      | .ok result => authenticate_on200 env http connectionString result w
    else
      match response.jsonBody with
      | .error e => (w, .error e)
      | .ok error_detail =>
        match error_detail.getD "message" (.str "Authentication failed. Please try again.") with
        | .error e => (w, .error e)
        | .ok m => (w, .ok (.null, .null, .null, .str ("API error: " ++ m.toPyStr)))

/-- The `try`-block of `authenticate_broker`: the hostlookup call, the
`if hostlookup_error is not None` gate, then the session stage.
`request_token` is accepted and never read, as in the source. -/
def authenticate_try (env : Env) (http : HttpLayer) (request_token : JValue) (w : World) :
    World × PyM (JValue × JValue × JValue × JValue) :=
  match hostlookup_login env http w with
  | (w, (connectionString, unique_key, hostlookup_error)) =>
    if !hostlookup_error.isNull then
      (w, .ok (.null, .null, .null, hostlookup_error))
    else
      authenticate_session env http connectionString unique_key w

/-- `authenticate_broker`: the try-block with its `except Exception` handler. -/
def authenticate_broker (env : Env) (http : HttpLayer) (request_token : JValue) (w : World) :
    World × (JValue × JValue × JValue × JValue) :=
  match authenticate_try env http request_token w with
  | (w, .ok t) => (w, t)
  | (w, .error e) => (w, (.null, .null, .null, .str ("Error during authentication: " ++ e.msg)))

/-! ## Concrete fixtures for counterexamples and witnesses -/

/-- An environment with every variable unset. -/
def env0 : Env := fun _ => none

/-- A successful hostlookup response body, shaped as in the source comment. -/
def lookupOkBody : JValue :=
  .obj [("type", .bool true), ("description", .str "Hostlookup successful"),
        ("result", .obj [("uniqueKey", .str "K"),
                         ("connectionString", .str "http://newhost:3000/2hostlookup")])]

/-- HTTP layer: hostlookup and session login succeed, the feed login
answers 500. -/
def httpFeedDown : HttpLayer := fun n _ =>
  match n with
  | 0 => .ok ⟨200, .ok lookupOkBody⟩
  | 1 => .ok ⟨200, .ok (.obj [("type", .str "success"), ("result", .obj [("token", .str "T")])])⟩
  | _ => .ok ⟨500, .ok (.obj [("description", .str "feed down")])⟩

/-- HTTP layer: hostlookup succeeds, the session login answers 503. -/
def httpSessionDown : HttpLayer := fun n _ =>
  match n with
  | 0 => .ok ⟨200, .ok lookupOkBody⟩
  | _ => .ok ⟨503, .ok (.obj [("message", .str "host down")])⟩

/-- HTTP layer: every request raises a network exception. -/
def httpRefused : HttpLayer := fun _ _ => .error ⟨"connection refused"⟩

/-- HTTP layer: every request answers 200 and `success` with a result
object holding only a `userID`. -/
def httpFeedNoToken : HttpLayer := fun _ _ =>
  .ok ⟨200, .ok (.obj [("type", .str "success"), ("result", .obj [("userID", .str "U")])])⟩

/-- HTTP layer: every request answers 500 with a `description`. -/
def httpAll500 : HttpLayer := fun _ _ =>
  .ok ⟨500, .ok (.obj [("description", .str "down")])⟩

/-- The derived-URL consistency invariant of the registry: the current
`BASE_URL` parses, and both derived URLs are the ones computed from it. -/
def derivedConsistent (s : URLState) : Prop :=
  ∃ d, origin s.BASE_URL = .ok d
    ∧ s.MARKET_DATA_URL = d ++ "/apimarketdata"
    ∧ s.INTERACTIVE_URL = s.BASE_URL

/-! ## Helper lemmas -/

/-- `hostlookup_try` always hands back the world extended by exactly the
hostlookup request. -/
theorem hostlookup_try_fst (env : Env) (http : HttpLayer) (w : World) :
    (hostlookup_try env http w).1 =
      { w with trace := w.trace ++ [hostlookupRequest env w] } := by
  simp only [hostlookup_try, doPost, hostlookupRequest]
  repeat' split
  all_goals rfl

/-- `hostlookup_login` always hands back the world extended by exactly the
hostlookup request. -/
theorem hostlookup_login_fst (env : Env) (http : HttpLayer) (w : World) :
    (hostlookup_login env http w).1 =
      { w with trace := w.trace ++ [hostlookupRequest env w] } := by
  have h := hostlookup_try_fst env http w
  unfold hostlookup_login
  split
  all_goals rename_i heq; rw [heq] at h; exact h

/-- `get_feed_token_try` always hands back the world extended by exactly
the feed request. -/
theorem get_feed_token_try_fst (env : Env) (http : HttpLayer) (w : World) :
    (get_feed_token_try env http w).1 =
      { w with trace := w.trace ++ [feedRequest env w] } := by
  simp only [get_feed_token_try, doPost, feedRequest]
  repeat' split
  all_goals rfl

/-- `get_feed_token` always hands back the world extended by exactly the
feed request. -/
theorem get_feed_token_fst (env : Env) (http : HttpLayer) (w : World) :
    (get_feed_token env http w).1 =
      { w with trace := w.trace ++ [feedRequest env w] } := by
  have h := get_feed_token_try_fst env http w
  unfold get_feed_token
  split
  all_goals rename_i heq; rw [heq] at h; exact h

/-- `get_feed_token` never touches the `URLConfig` state. -/
theorem get_feed_token_urlcfg (env : Env) (http : HttpLayer) (w : World) :
    (get_feed_token env http w).1.urlcfg = w.urlcfg := by
  rw [get_feed_token_fst]

/-- `authenticate_broker` hands back the world of its try-block: the
`except` handler only repackages the result. -/
theorem authenticate_broker_fst (env : Env) (http : HttpLayer) (rt : JValue) (w : World) :
    (authenticate_broker env http rt w).1 = (authenticate_try env http rt w).1 := by
  unfold authenticate_broker
  split
  all_goals rename_i heq; rw [heq]

/-- The world returned by `authenticate_feedStep` is the one returned by
its `get_feed_token` call. -/
theorem authenticate_feedStep_fst (env : Env) (http : HttpLayer) (token : JValue) (w : World) :
    (authenticate_feedStep env http token w).1 = (get_feed_token env http w).1 := by
  unfold authenticate_feedStep
  split
  rename_i heq
  split
  all_goals rw [heq]

/-- After `authenticate_feedStep`, the trace holds a feed request. -/
theorem authenticate_feedStep_trace (env : Env) (http : HttpLayer) (token : JValue) (w : World) :
    ∃ r ∈ (authenticate_feedStep env http token w).1.trace, r.kind = ReqKind.feed := by
  refine ⟨feedRequest env w, ?_, rfl⟩
  rw [authenticate_feedStep_fst, get_feed_token_fst]
  exact List.mem_append_right _ (List.mem_singleton_self _)

/-- `JValue.get` on an object is total: the looked-up value, defaulting to
`None`. -/
theorem JValue.get_obj (fs : List (String × JValue)) (k : String) :
    JValue.get (.obj fs) k = .ok ((fs.lookup k).getD JValue.null) := by
  simp only [JValue.get]
  cases fs.lookup k <;> rfl

/-- Any outcome of `authenticate_feedStep` leaves a feed request in the
trace of the returned world. -/
theorem authenticate_feedStep_world_trace (env : Env) (http : HttpLayer)
    (token : JValue) (w w' : World) (r4 : PyM (JValue × JValue × JValue × JValue))
    (h : authenticate_feedStep env http token w = (w', r4)) :
    ∃ r ∈ w'.trace, r.kind = ReqKind.feed := by
  have htr := authenticate_feedStep_trace env http token w
  rw [h] at htr
  exact htr

/-- In any run of the session stage whose 4-tuple carries a non-null
first component, a feed request was issued. -/
theorem authenticate_session_feed (env : Env) (http : HttpLayer)
    (cs uk : JValue) (w w' : World) (t ft uid err : JValue)
    (h : authenticate_session env http cs uk w = (w', .ok (t, ft, uid, err)))
    (ht : t ≠ JValue.null) :
    ∃ r ∈ w'.trace, r.kind = ReqKind.feed := by
  simp only [authenticate_session, doPost, authenticate_on200] at h
  repeat' split at h
  all_goals
    first
      | (exact authenticate_feedStep_world_trace env http _ _ _ _ h)
      | (simp at h; done)
      | (simp only [Prod.mk.injEq, Except.ok.injEq] at h
         exact absurd h.2.1.symm ht)

/-- `authenticate_broker` either reflects an `.ok` outcome of its
try-block, or its `except` handler produced the all-null error tuple. -/
theorem authenticate_broker_cases (env : Env) (http : HttpLayer) (rt : JValue)
    (w w' : World) (t ft uid err : JValue)
    (h : authenticate_broker env http rt w = (w', (t, ft, uid, err))) :
    authenticate_try env http rt w = (w', .ok (t, ft, uid, err))
    ∨ (t = JValue.null ∧ ft = JValue.null ∧ uid = JValue.null) := by
  unfold authenticate_broker at h
  split at h
  · rename_i w2 t4 heq
    left
    injection h with h1 h2
    subst h1
    rw [h2] at heq
    exact heq
  · rename_i w2 e heq
    right
    injection h with h1 h2
    injection h2 with h3 h4
    injection h4 with h5 h6
    injection h6 with h7 h8
    exact ⟨h3.symm, h5.symm, h7.symm⟩

/-- `hostlookup_login` either reflects an `.ok` outcome of its try-block,
or its `except` handler nulled the two result components. -/
theorem hostlookup_login_cases (env : Env) (http : HttpLayer) (w w' : World)
    (r1 r2 r3 : JValue)
    (h : hostlookup_login env http w = (w', (r1, r2, r3))) :
    hostlookup_try env http w = (w', .ok (r1, r2, r3))
    ∨ (r1 = JValue.null ∧ r2 = JValue.null) := by
  unfold hostlookup_login at h
  split at h
  · rename_i w2 t heq
    left
    injection h with h1 h2
    subst h1
    rw [h2] at heq
    exact heq
  · rename_i w2 e heq
    right
    injection h with h1 h2
    injection h2 with h3 h4
    injection h4 with h5 h6
    exact ⟨h3.symm, h5.symm⟩

/-- Every non-null error out of the hostlookup try-block comes with null
result components. -/
theorem hostlookup_try_failNulls (env : Env) (http : HttpLayer) (w w' : World)
    (r1 r2 r3 : JValue)
    (h : hostlookup_try env http w = (w', .ok (r1, r2, r3)))
    (hne : r3 ≠ JValue.null) : r1 = JValue.null ∧ r2 = JValue.null := by
  simp only [hostlookup_try, doPost] at h
  repeat' split at h
  all_goals
    first
      | (simp at h; done)
      | (simp only [Prod.mk.injEq, Except.ok.injEq] at h
         exact absurd h.2.2.2.symm hne)
      | (simp only [Prod.mk.injEq, Except.ok.injEq] at h
         exact ⟨h.2.1.symm, h.2.2.1.symm⟩)

/-- `get_feed_token` either reflects an `.ok` outcome of its try-block,
or its `except` handler nulled the two result components. -/
theorem get_feed_token_cases (env : Env) (http : HttpLayer) (w w' : World)
    (r1 r2 r3 : JValue)
    (h : get_feed_token env http w = (w', (r1, r2, r3))) :
    get_feed_token_try env http w = (w', .ok (r1, r2, r3))
    ∨ (r1 = JValue.null ∧ r2 = JValue.null) := by
  unfold get_feed_token at h
  split at h
  · rename_i w2 t heq
    left
    injection h with h1 h2
    subst h1
    rw [h2] at heq
    exact heq
  · rename_i w2 e heq
    right
    injection h with h1 h2
    injection h2 with h3 h4
    injection h4 with h5 h6
    exact ⟨h3.symm, h5.symm⟩

/-- Every non-null error out of the feed try-block comes with null result
components. -/
theorem get_feed_token_try_failNulls (env : Env) (http : HttpLayer) (w w' : World)
    (r1 r2 r3 : JValue)
    (h : get_feed_token_try env http w = (w', .ok (r1, r2, r3)))
    (hne : r3 ≠ JValue.null) : r1 = JValue.null ∧ r2 = JValue.null := by
  simp only [get_feed_token_try, doPost] at h
  repeat' split at h
  all_goals
    first
      | (simp at h; done)
      | (simp only [Prod.mk.injEq, Except.ok.injEq] at h
         exact absurd h.2.2.2.symm hne)
      | (simp only [Prod.mk.injEq, Except.ok.injEq] at h
         exact ⟨h.2.1.symm, h.2.2.1.symm⟩)

/-- A non-null error out of `authenticate_feedStep` comes with null feed
token and user id. -/
theorem authenticate_feedStep_failNulls (env : Env) (http : HttpLayer)
    (token : JValue) (w w' : World) (t ft uid err : JValue)
    (h : authenticate_feedStep env http token w = (w', .ok (t, ft, uid, err)))
    (he : err ≠ JValue.null) : ft = JValue.null ∧ uid = JValue.null := by
  unfold authenticate_feedStep at h
  repeat' split at h
  all_goals
    first
      | (simp only [Prod.mk.injEq, Except.ok.injEq] at h
         exact ⟨h.2.2.1.symm, h.2.2.2.1.symm⟩)
      | (simp only [Prod.mk.injEq, Except.ok.injEq] at h
         exact absurd h.2.2.2.2.symm he)

/-- A non-null error out of the session stage comes with null feed token
and user id. -/
theorem authenticate_session_failNulls (env : Env) (http : HttpLayer)
    (cs uk : JValue) (w w' : World) (t ft uid err : JValue)
    (h : authenticate_session env http cs uk w = (w', .ok (t, ft, uid, err)))
    (he : err ≠ JValue.null) : ft = JValue.null ∧ uid = JValue.null := by
  simp only [authenticate_session, doPost, authenticate_on200] at h
  repeat' split at h
  all_goals
    first
      | (exact authenticate_feedStep_failNulls env http _ _ _ _ _ _ _ h he)
      | (simp at h; done)
      | (simp only [Prod.mk.injEq, Except.ok.injEq] at h
         exact ⟨h.2.2.1.symm, h.2.2.2.1.symm⟩)

/-- Case analysis of the registry effect of the session stage: the
`URLConfig` state becomes the result of `update_base_url` (fully updated,
or partially mutated when `urlparse` raises on the connection string)
exactly when the session POST answers HTTP 200 with a parseable body,
and is untouched on a raised exception, a non-200 status, or an
unparseable 200 body. -/
theorem authenticate_session_urlcfg (env : Env) (http : HttpLayer) (cs : String)
    (uk : JValue) (w : World) :
    (∀ resp result, http w.trace.length (sessionRequest env (JValue.str cs) uk w) = .ok resp →
        resp.status_code = 200 → resp.jsonBody = .ok result →
        (authenticate_session env http (JValue.str cs) uk w).1.urlcfg =
          (update_base_url w.urlcfg cs).1)
    ∧ (∀ e, http w.trace.length (sessionRequest env (JValue.str cs) uk w) = .error e →
        (authenticate_session env http (JValue.str cs) uk w).1.urlcfg = w.urlcfg)
    ∧ (∀ resp, http w.trace.length (sessionRequest env (JValue.str cs) uk w) = .ok resp →
        resp.status_code ≠ 200 →
        (authenticate_session env http (JValue.str cs) uk w).1.urlcfg = w.urlcfg)
    ∧ (∀ resp e, http w.trace.length (sessionRequest env (JValue.str cs) uk w) = .ok resp →
        resp.status_code = 200 → resp.jsonBody = .error e →
        (authenticate_session env http (JValue.str cs) uk w).1.urlcfg = w.urlcfg) := by
  refine ⟨?_, ?_, ?_, ?_⟩
  · intro resp result hpost h200 hjson
    simp only [sessionRequest] at hpost
    simp only [authenticate_session, doPost, hpost, h200, hjson, beq_self_eq_true, if_true,
      authenticate_on200]
    repeat' split
    all_goals
      first
        | rfl
        | (rw [authenticate_feedStep_fst, get_feed_token_urlcfg])
  · intro e hpost
    simp only [sessionRequest] at hpost
    simp only [authenticate_session, doPost, hpost]
  · intro resp hpost hne
    simp only [sessionRequest] at hpost
    simp only [authenticate_session, doPost, hpost, beq_iff_eq, hne, if_false]
    repeat' split
    all_goals rfl
  · intro resp e hpost h200 hjson
    simp only [sessionRequest] at hpost
    simp only [authenticate_session, doPost, hpost, h200, hjson, beq_self_eq_true, if_true]

/-! ## Claims -/

/-- C1, counterexample: in a run where Stage 2 answers HTTP 200 with
`type: "success"` and Stage 3 fails, `authenticate_broker` returns the
session token `"T"` as the first component of the 4-tuple — not null as
the claim states — so the tuple is not
`(null, null, null, "Feed token error: ...")`. -/
theorem feed_failure_tuple_cex :
    (authenticate_broker env0 httpFeedDown JValue.null initWorld).2 =
      (JValue.str "T", JValue.null, JValue.null,
       JValue.str "Feed token error: API Error (Feed): feed down")
    ∧ (authenticate_broker env0 httpFeedDown JValue.null initWorld).2.1 ≠ JValue.null := by
  refine ⟨rfl, ?_⟩
  intro hcon
  exact nomatch (show JValue.str "T" = JValue.null from hcon)

/-- C1, amended: when Stage 2 succeeded (so a session token was
extracted and control reached the feed step) and `get_feed_token`
reports a truthy error, `authenticate_broker` returns
`(sessionToken, null, null, "Feed token error: " + <feed error text>)`:
the session token IS surfaced in the first component, while the feed
token and user id components are null. -/
theorem feed_failure_surfaces_token (env : Env) (http : HttpLayer) (token : JValue)
    (w w2 : World) (ft uid ferr : JValue)
    (hf : get_feed_token env http w = (w2, (ft, uid, ferr)))
    (ht : ferr.truthy = true) :
    authenticate_feedStep env http token w =
      (w2, .ok (token, JValue.null, JValue.null,
        JValue.str ("Feed token error: " ++ ferr.toPyStr))) := by
  unfold authenticate_feedStep
  rw [hf]
  simp [ht]

/-- C1, witness: a concrete run of the feed step after a failing feed
login, showing the token surfaced next to the non-null error. -/
theorem feed_failure_surfaces_token_witness :
    authenticate_feedStep env0 httpAll500 (JValue.str "TK") initWorld =
      ((get_feed_token env0 httpAll500 initWorld).1,
       .ok (JValue.str "TK", JValue.null, JValue.null,
         JValue.str "Feed token error: API Error (Feed): down")) :=
  feed_failure_surfaces_token env0 httpAll500 (JValue.str "TK") initWorld
    (get_feed_token env0 httpAll500 initWorld).1
    (get_feed_token env0 httpAll500 initWorld).2.1
    (get_feed_token env0 httpAll500 initWorld).2.2.1
    (get_feed_token env0 httpAll500 initWorld).2.2.2
    rfl rfl

/-- C2, counterexample: a run in which Stage 1 produces the connection
string `"http://newhost:3000/2hostlookup"` and the Stage 2 request fails
with status 503 leaves the registry's base URL at its old value, not at
the new connection string — contradicting the claim that the update is
unconditional once Stage 1 has produced a connection string. -/
theorem stage2_failure_registry_cex :
    (hostlookup_login env0 httpSessionDown initWorld).2.1 =
      JValue.str "http://newhost:3000/2hostlookup"
    ∧ (authenticate_broker env0 httpSessionDown JValue.null initWorld).1.urlcfg.BASE_URL =
      "http://xtstradingnse.aryafingroup.in:3000"
    ∧ (authenticate_broker env0 httpSessionDown JValue.null initWorld).1.urlcfg.BASE_URL ≠
      "http://newhost:3000/2hostlookup" := by
  refine ⟨rfl, rfl, ?_⟩
  intro hcon
  have h : "http://xtstradingnse.aryafingroup.in:3000" = "http://newhost:3000/2hostlookup" := hcon
  simp at h

/-- C2, amended: in a run of `authenticate_broker` in which Stage 1
succeeds with connection string `cs`, the registry is updated to `cs`
exactly when the Stage 2 response arrives with HTTP 200 and a parseable
JSON body (before the `type` field is examined, so even a 200 whose
`type` is not `"success"` updates it); a raised Stage 2 exception, a
non-200 status, or an unparseable 200 body each leave the registry
unchanged. -/
theorem stage2_registry_update_conditions (env : Env) (http : HttpLayer) (rt : JValue)
    (w w1 : World) (cs : String) (uk : JValue)
    (hl : hostlookup_login env http w = (w1, (JValue.str cs, uk, JValue.null))) :
    (∀ resp result,
        http w1.trace.length (sessionRequest env (JValue.str cs) uk w1) = .ok resp →
        resp.status_code = 200 → resp.jsonBody = .ok result →
        (authenticate_broker env http rt w).1.urlcfg = (update_base_url w1.urlcfg cs).1)
    ∧ (∀ e, http w1.trace.length (sessionRequest env (JValue.str cs) uk w1) = .error e →
        (authenticate_broker env http rt w).1.urlcfg = w1.urlcfg)
    ∧ (∀ resp, http w1.trace.length (sessionRequest env (JValue.str cs) uk w1) = .ok resp →
        resp.status_code ≠ 200 →
        (authenticate_broker env http rt w).1.urlcfg = w1.urlcfg)
    ∧ (∀ resp e, http w1.trace.length (sessionRequest env (JValue.str cs) uk w1) = .ok resp →
        resp.status_code = 200 → resp.jsonBody = .error e →
        (authenticate_broker env http rt w).1.urlcfg = w1.urlcfg) := by
  have hb : (authenticate_broker env http rt w).1 =
      (authenticate_session env http (JValue.str cs) uk w1).1 := by
    rw [authenticate_broker_fst]
    have hTry : authenticate_try env http rt w =
        authenticate_session env http (JValue.str cs) uk w1 := by
      unfold authenticate_try
      rw [hl]
      simp [JValue.isNull]
    rw [hTry]
  obtain ⟨hA, hB, hC, hD⟩ := authenticate_session_urlcfg env http cs uk w1
  refine ⟨?_, ?_, ?_, ?_⟩
  · intro resp result hpost h200 hjson
    rw [hb]
    exact hA resp result hpost h200 hjson
  · intro e hpost
    rw [hb]
    exact hB e hpost
  · intro resp hpost hne
    rw [hb]
    exact hC resp hpost hne
  · intro resp e hpost h200 hjson
    rw [hb]
    exact hD resp e hpost h200 hjson

/-- C2, witness: the concrete 503 Stage 2 run, with the registry equal to
the registry after the hostlookup (which never touches it). -/
theorem stage2_registry_update_conditions_witness :
    (authenticate_broker env0 httpSessionDown JValue.null initWorld).1.urlcfg =
      (hostlookup_login env0 httpSessionDown initWorld).1.urlcfg :=
  (stage2_registry_update_conditions env0 httpSessionDown JValue.null initWorld
      (hostlookup_login env0 httpSessionDown initWorld).1
      "http://newhost:3000/2hostlookup" (JValue.str "K") rfl).2.2.1
    ⟨503, .ok (.obj [("message", .str "host down")])⟩ rfl (by decide)

/-- C3, counterexample: at `newBase = "http://[x"` (a netloc whose
square bracket urlsplit finds mismatched), `update_base_url` assigns
`BASE_URL` and then `urlparse` raises `ValueError("Invalid IPv6 URL")`
inside `_update_derived_urls`: `origin("http://[x")` does not exist and
`MARKET_DATA_URL` keeps the value derived from the previous base — so
`updateBaseURL` does not, for every string, set `marketDataURL` to
`origin(newBase) + "/apimarketdata"`. -/
theorem updateBaseURL_cex :
    origin "http://[x" = .error ⟨"Invalid IPv6 URL"⟩
    ∧ (update_base_url initURLState "http://[x").2 = .error ⟨"Invalid IPv6 URL"⟩
    ∧ (update_base_url initURLState "http://[x").1.BASE_URL = "http://[x"
    ∧ (update_base_url initURLState "http://[x").1.MARKET_DATA_URL =
        "http://xtstradingnse.aryafingroup.in:3000/apimarketdata"
    ∧ (update_base_url initURLState "http://[x").1.MARKET_DATA_URL ≠
        "http://xtstradingnse.aryafingroup.in:3000" := by
  refine ⟨rfl, rfl, rfl, rfl, ?_⟩
  decide

/-- C3, amended: for every string `newBase` on which `urlparse` succeeds,
`update_base_url` sets `BASE_URL := newBase`, `MARKET_DATA_URL :=
origin(newBase) ++ "/apimarketdata"` (where `origin` keeps only the
scheme and host:port of the tab/CR/LF-cleaned string, discarding the
path) and `INTERACTIVE_URL := newBase`, returning without raising; for
every `newBase` on which `urlparse` raises, only `BASE_URL` is assigned
and the exception escapes, both derived URLs keeping their previous
values; in particular the spec's example `"http://host:3000/2hostlookup"`
gives market-data URL `"http://host:3000/apimarketdata"` and interactive
URL `"http://host:3000/2hostlookup"`. -/
theorem updateBaseURL_sets_fields :
    (∀ (s : URLState) (newBase d : String),
      origin newBase = .ok d →
      update_base_url s newBase =
        ({ s with BASE_URL := newBase,
                  MARKET_DATA_URL := d ++ "/apimarketdata",
                  INTERACTIVE_URL := newBase }, .ok ()))
    ∧ (∀ (s : URLState) (newBase : String) (e : PyExn),
      origin newBase = .error e →
      update_base_url s newBase = ({ s with BASE_URL := newBase }, .error e))
    ∧ (∀ s : URLState,
        (update_base_url s "http://host:3000/2hostlookup").1.MARKET_DATA_URL =
          "http://host:3000/apimarketdata"
        ∧ (update_base_url s "http://host:3000/2hostlookup").1.INTERACTIVE_URL =
          "http://host:3000/2hostlookup"
        ∧ (update_base_url s "http://host:3000/2hostlookup").2 = .ok ()) := by
  refine ⟨?_, ?_, ?_⟩
  · intro s newBase d h
    simp only [update_base_url, update_derived_urls, h]
  · intro s newBase e h
    simp only [update_base_url, update_derived_urls, h]
  · intro s
    exact ⟨rfl, rfl, rfl⟩

/-- C3, witness: the successful concrete update, with each field set as
the amended claim states. -/
theorem updateBaseURL_sets_fields_witness :
    update_base_url initURLState "http://host:3000/2hostlookup" =
      ({ initURLState with
          BASE_URL := "http://host:3000/2hostlookup",
          MARKET_DATA_URL := "http://host:3000" ++ "/apimarketdata",
          INTERACTIVE_URL := "http://host:3000/2hostlookup" }, .ok ()) :=
  updateBaseURL_sets_fields.1 initURLState "http://host:3000/2hostlookup"
    "http://host:3000" rfl

/-- C4: if the Stage 1 hostlookup POST raises an exception,
`authenticate_broker` returns the all-null tuple with an error carrying
the exception text, and the run's request trace gains exactly the one
hostlookup request — neither the Stage 2 nor the Stage 3 request is ever
issued. -/
theorem stage1_exception_shortcircuits (env : Env) (http : HttpLayer) (rt : JValue)
    (w : World) (e : PyExn)
    (h : http w.trace.length (hostlookupRequest env w) = .error e) :
    authenticate_broker env http rt w =
      ({ w with trace := w.trace ++ [hostlookupRequest env w] },
       (JValue.null, JValue.null, JValue.null,
        JValue.str ("Error during hostlookup: " ++ e.msg))) := by
  simp only [hostlookupRequest] at h
  simp only [authenticate_broker, authenticate_try, hostlookup_login, hostlookup_try, doPost,
    hostlookupRequest, h, JValue.isNull, Bool.not_false, if_true]

/-- C4, witness: the concrete connection-refused run. -/
theorem stage1_exception_shortcircuits_witness :
    authenticate_broker env0 httpRefused JValue.null initWorld =
      ({ initWorld with trace := initWorld.trace ++ [hostlookupRequest env0 initWorld] },
       (JValue.null, JValue.null, JValue.null,
        JValue.str "Error during hostlookup: connection refused")) :=
  stage1_exception_shortcircuits env0 httpRefused JValue.null initWorld
    ⟨"connection refused"⟩ rfl

/-- C5: on an HTTP-200 lookup response whose `result` holds truthy
`connectionString` and `uniqueKey`, `hostlookup_login` returns the two
values unchanged with a null error; on an HTTP-200 response whose
`result` object is missing `connectionString` or `uniqueKey`, it returns
`(null, null, <non-null incomplete-data error>)`. -/
theorem lookupHost_result_fields (env : Env) (http : HttpLayer) (w : World)
    (resp : HResponse) (j result : JValue)
    (hpost : http w.trace.length (hostlookupRequest env w) = .ok resp)
    (hstatus : resp.status_code = 200)
    (hjson : resp.jsonBody = .ok j)
    (hres : j.get "result" = .ok result) :
    (∀ cs uk : JValue,
      result.get "connectionString" = .ok cs → cs.truthy = true →
      result.get "uniqueKey" = .ok uk → uk.truthy = true →
      hostlookup_login env http w =
        ({ w with trace := w.trace ++ [hostlookupRequest env w] }, (cs, uk, JValue.null)))
    ∧ (∀ fs : List (String × JValue), result = JValue.obj fs →
        fs.lookup "connectionString" = none ∨ fs.lookup "uniqueKey" = none →
        hostlookup_login env http w =
          ({ w with trace := w.trace ++ [hostlookupRequest env w] },
           (JValue.null, JValue.null,
            JValue.str "Error during hostlookup: Incomplete response data."))) := by
  simp only [hostlookupRequest] at hpost
  constructor
  · intro cs uk hcs hcst huk hukt
    simp only [hostlookup_login, hostlookup_try, doPost, hostlookupRequest, hpost, hstatus,
      hjson, hres, hcs, hcst, huk, hukt, beq_self_eq_true, if_true]
  · intro fs hfs hmiss
    subst hfs
    simp only [hostlookup_login, hostlookup_try, doPost, hostlookupRequest, hpost, hstatus,
      hjson, hres, JValue.get_obj, beq_self_eq_true, if_true]
    rcases hmiss with hm | hm
    · rw [hm]
      simp [JValue.truthy]
    · cases hcs : fs.lookup "connectionString" with
      | none =>
        simp [JValue.truthy]
      | some v =>
        rw [hm]
        by_cases hvt : v.truthy = true
        · simp [hvt, JValue.truthy]
        · simp [hvt, JValue.truthy]

/-- C5, witness: the concrete successful lookup, returning the
connection string and unique key unchanged with a null error. -/
theorem lookupHost_result_fields_witness :
    hostlookup_login env0 httpFeedDown initWorld =
      ({ initWorld with trace := initWorld.trace ++ [hostlookupRequest env0 initWorld] },
       (JValue.str "http://newhost:3000/2hostlookup", JValue.str "K", JValue.null)) :=
  (lookupHost_result_fields env0 httpFeedDown initWorld ⟨200, .ok lookupOkBody⟩ lookupOkBody
      (JValue.obj [("uniqueKey", .str "K"),
                   ("connectionString", .str "http://newhost:3000/2hostlookup")])
      rfl rfl rfl rfl).1
    (JValue.str "http://newhost:3000/2hostlookup") (JValue.str "K")
    rfl (by decide) rfl (by decide)

/-- C6, counterexample: `update_base_url` applied to the initial registry
state with `"http://[x"` assigns the new `BASE_URL`, then `urlparse`
raises, leaving `MARKET_DATA_URL` computed from the old base — a
registry state whose derived URLs are not consistent with its current
base URL, contradicting the claimed invariant "after every updateBaseURL
call". -/
theorem registry_invariant_cex :
    (update_base_url initURLState "http://[x").1.BASE_URL = "http://[x"
    ∧ (update_base_url initURLState "http://[x").1.MARKET_DATA_URL =
        "http://xtstradingnse.aryafingroup.in:3000/apimarketdata"
    ∧ (update_base_url initURLState "http://[x").2 = .error ⟨"Invalid IPv6 URL"⟩
    ∧ ¬ derivedConsistent (update_base_url initURLState "http://[x").1 := by
  refine ⟨rfl, rfl, rfl, ?_⟩
  rintro ⟨d, hd, -⟩
  exact nomatch (show (Except.error ⟨"Invalid IPv6 URL"⟩ : PyM String) = .ok d from hd)

/-- C6, amended: the derived-URL invariant holds after initialization and
after every `update_base_url` call that completes without raising (such a
call re-establishes it from any state); a call on which `urlparse`
raises instead assigns `BASE_URL` and leaves the derived URLs stale. -/
theorem registry_derived_consistent :
    derivedConsistent initURLState
    ∧ ∀ (s : URLState) (newBase : String), (update_base_url s newBase).2 = .ok () →
        derivedConsistent (update_base_url s newBase).1 := by
  constructor
  · exact ⟨"http://xtstradingnse.aryafingroup.in:3000", rfl, rfl, rfl⟩
  · intro s newBase h
    simp only [update_base_url, update_derived_urls] at h ⊢
    cases horig : origin newBase with
    | error e =>
      rw [horig] at h
      exact nomatch h
    | ok d =>
      exact ⟨d, horig, rfl, rfl⟩

/-- C6, witness: the invariant after a successful concrete update. -/
theorem registry_derived_consistent_witness :
    derivedConsistent (update_base_url initURLState "http://host:3000/2hostlookup").1 :=
  registry_derived_consistent.2 initURLState "http://host:3000/2hostlookup" rfl

/-- C7: in a run of `authenticate_broker` starting from an empty request
trace, a non-null first component of the returned 4-tuple implies the
run issued a feed-login request: a session token is never returned
without Stage 3 having been attempted in the same call. -/
theorem token_requires_feed_attempt (env : Env) (http : HttpLayer) (rt : JValue)
    (cfg : URLState) (w' : World) (t ft uid err : JValue)
    (h : authenticate_broker env http rt ⟨cfg, []⟩ = (w', (t, ft, uid, err)))
    (ht : t ≠ JValue.null) :
    ∃ r ∈ w'.trace, r.kind = ReqKind.feed := by
  rcases authenticate_broker_cases env http rt ⟨cfg, []⟩ w' t ft uid err h with hTry | hnull
  · unfold authenticate_try at hTry
    split at hTry
    split at hTry
    · simp only [Prod.mk.injEq, Except.ok.injEq] at hTry
      exact absurd hTry.2.1.symm ht
    · exact authenticate_session_feed env http _ _ _ _ _ _ _ _ hTry ht
  · exact absurd hnull.1 ht

/-- C7, witness: the concrete feed-failure run returns the session token
`"T"` and its trace holds a feed request. -/
theorem token_requires_feed_attempt_witness :
    ∃ r ∈ (authenticate_broker env0 httpFeedDown JValue.null initWorld).1.trace,
      r.kind = ReqKind.feed :=
  token_requires_feed_attempt env0 httpFeedDown JValue.null initURLState
    (authenticate_broker env0 httpFeedDown JValue.null initWorld).1
    (authenticate_broker env0 httpFeedDown JValue.null initWorld).2.1
    (authenticate_broker env0 httpFeedDown JValue.null initWorld).2.2.1
    (authenticate_broker env0 httpFeedDown JValue.null initWorld).2.2.2.1
    (authenticate_broker env0 httpFeedDown JValue.null initWorld).2.2.2.2
    rfl
    (fun hcon => nomatch (show JValue.str "T" = JValue.null from hcon))

/-- C8, counterexample: `authenticate_broker` can return a tuple whose
error component is non-null while a result component (the session token)
is also non-null — the Stage-3-failure path — so it is not the case that
every failure is represented as null result values paired with a
non-null error string. -/
theorem entrypoint_failure_shape_cex :
    (authenticate_broker env0 httpFeedDown JValue.null initWorld).2.2.2.2 ≠ JValue.null
    ∧ (authenticate_broker env0 httpFeedDown JValue.null initWorld).2.1 ≠ JValue.null := by
  constructor
  · intro hcon
    exact nomatch
      (show JValue.str "Feed token error: API Error (Feed): feed down" = JValue.null from hcon)
  · intro hcon
    exact nomatch (show JValue.str "T" = JValue.null from hcon)

/-- C8, amended: no entry point propagates an exception (each is a total
function whose catch-all handler turns every raised exception into a
returned tuple, as the return types of `hostlookup_login`,
`authenticate_broker` and `get_feed_token` record); `hostlookup_login`
and `get_feed_token` pair every non-null error with all-null result
components, and `authenticate_broker` pairs every non-null error with
null feed-token and user-id components — but its Stage-3-failure path
keeps the non-null session token in the first component. -/
theorem entrypoint_failure_shape (env : Env) (http : HttpLayer) (w : World) :
    (∀ w' r1 r2 r3, hostlookup_login env http w = (w', (r1, r2, r3)) →
        r3 ≠ JValue.null → r1 = JValue.null ∧ r2 = JValue.null)
    ∧ (∀ w' r1 r2 r3, get_feed_token env http w = (w', (r1, r2, r3)) →
        r3 ≠ JValue.null → r1 = JValue.null ∧ r2 = JValue.null)
    ∧ (∀ rt w' t ft uid err, authenticate_broker env http rt w = (w', (t, ft, uid, err)) →
        err ≠ JValue.null → ft = JValue.null ∧ uid = JValue.null) := by
  refine ⟨?_, ?_, ?_⟩
  · intro w' r1 r2 r3 h hne
    rcases hostlookup_login_cases env http w w' r1 r2 r3 h with hTry | hok
    · exact hostlookup_try_failNulls env http w w' r1 r2 r3 hTry hne
    · exact hok
  · intro w' r1 r2 r3 h hne
    rcases get_feed_token_cases env http w w' r1 r2 r3 h with hTry | hok
    · exact get_feed_token_try_failNulls env http w w' r1 r2 r3 hTry hne
    · exact hok
  · intro rt w' t ft uid err h hne
    rcases authenticate_broker_cases env http rt w w' t ft uid err h with hTry | hok
    · unfold authenticate_try at hTry
      split at hTry
      split at hTry
      · simp only [Prod.mk.injEq, Except.ok.injEq] at hTry
        exact ⟨hTry.2.2.1.symm, hTry.2.2.2.1.symm⟩
      · exact authenticate_session_failNulls env http _ _ _ _ _ _ _ _ hTry hne
    · exact ⟨hok.2.1, hok.2.2⟩

/-- C8, witness: in the concrete feed-failure run the non-null error is
paired with null feed-token and user-id components. -/
theorem entrypoint_failure_shape_witness :
    (authenticate_broker env0 httpFeedDown JValue.null initWorld).2.2.1 = JValue.null
    ∧ (authenticate_broker env0 httpFeedDown JValue.null initWorld).2.2.2.1 = JValue.null :=
  (entrypoint_failure_shape env0 httpFeedDown initWorld).2.2 JValue.null
    (authenticate_broker env0 httpFeedDown JValue.null initWorld).1
    (authenticate_broker env0 httpFeedDown JValue.null initWorld).2.1
    (authenticate_broker env0 httpFeedDown JValue.null initWorld).2.2.1
    (authenticate_broker env0 httpFeedDown JValue.null initWorld).2.2.2.1
    (authenticate_broker env0 httpFeedDown JValue.null initWorld).2.2.2.2
    rfl
    (fun hcon =>
      nomatch
        (show JValue.str "Feed token error: API Error (Feed): feed down" = JValue.null from hcon))

/-- C9: `request_token` is a dead parameter of `authenticate_broker`:
with environment, HTTP behaviour and world fixed, any two values of it
give identical results (tuple and final world). -/
theorem authenticate_ignores_requestToken (env : Env) (http : HttpLayer)
    (t1 t2 : JValue) (w : World) :
    authenticate_broker env http t1 w = authenticate_broker env http t2 w := rfl

/-- C10: on a feed response with HTTP 200, `type: "success"` and a
`result` object missing the `token` or the `userID` field,
`get_feed_token` still returns a null error component (and a null feed
token when `token` is the missing field). -/
theorem feed_missing_fields_null_error (env : Env) (http : HttpLayer) (w : World)
    (resp : HResponse) (fr ty : JValue) (rfields : List (String × JValue))
    (hpost : http w.trace.length (feedRequest env w) = .ok resp)
    (hstatus : resp.status_code = 200)
    (hjson : resp.jsonBody = .ok fr)
    (hty : fr.get "type" = .ok ty)
    (hsucc : ty.eqStr "success" = true)
    (hres : fr.item "result" = .ok (JValue.obj rfields))
    (hmiss : rfields.lookup "token" = none ∨ rfields.lookup "userID" = none) :
    (get_feed_token env http w).2.2.2 = JValue.null
    ∧ (rfields.lookup "token" = none → (get_feed_token env http w).2.1 = JValue.null) := by
  simp only [feedRequest] at hpost
  constructor
  · simp only [get_feed_token, get_feed_token_try, doPost, feedRequest, hpost, hstatus, hjson,
      hty, hsucc, hres, JValue.get_obj, beq_self_eq_true, if_true]
  · intro htok
    simp only [get_feed_token, get_feed_token_try, doPost, feedRequest, hpost, hstatus, hjson,
      hty, hsucc, hres, JValue.get_obj, htok, beq_self_eq_true, if_true, Option.getD_none]

/-- C10, witness: the concrete token-less success feed response yields a
null error and a null feed token. -/
theorem feed_missing_fields_null_error_witness :
    (get_feed_token env0 httpFeedNoToken initWorld).2.2.2 = JValue.null
    ∧ (get_feed_token env0 httpFeedNoToken initWorld).2.1 = JValue.null := by
  have h := feed_missing_fields_null_error env0 httpFeedNoToken initWorld
      ⟨200, .ok (.obj [("type", .str "success"), ("result", .obj [("userID", .str "U")])])⟩
      (.obj [("type", .str "success"), ("result", .obj [("userID", .str "U")])])
      (.str "success") [("userID", .str "U")]
      rfl rfl rfl rfl rfl rfl (Or.inl rfl)
  exact ⟨h.1, h.2 rfl⟩

end AryaFinGroup
